import Mathlib

/-!
Shallow embedding of the error-registry logic of `pleme-error-boundary`.

Two error stores exist in the repository:
* the XState machine in `src/machines/error.machine.ts` (no deduplication),
  embedded as `step` over `ErrorMachineContext`;
* the plain React-state `ErrorProvider` in `src/context/ErrorToastProvider.tsx`
  (deduplicating, no logging), embedded as `providerAddError`.

Effects are made explicit: `Date.now()` and the random id suffix are passed as
parameters (`now`, `rand`), and each command returns the list of
`console.error` log lines it emits.  The JavaScript `Array.prototype.slice`
call with a negative argument is modelled by `jsSliceLast`, including the
`slice(-0) = slice(0)` corner case.
-/

/-- The six error categories of `ErrorType` in `src/types` (unnamed part_000). -/
inductive ErrorType where
  | network
  | validation
  | cart
  | checkout
  | general
  | auth
deriving DecidableEq

/-- Upper-casing of the category, as `logErrorToConsole` performs on
`error.type`. -/
def ErrorType.toUpperCase : ErrorType → String
  | .network => "NETWORK"
  | .validation => "VALIDATION"
  | .cart => "CART"
  | .checkout => "CHECKOUT"
  | .general => "GENERAL"
  | .auth => "AUTH"

/-- The `AppError` record from `src/types`.  `timestamp` is epoch milliseconds (a JS
number).  `context` is `Record<string, unknown>` metadata; the registry only
ever serializes it (`JSON.stringify`, deterministic), so it is carried here as
its serialized string.  The optional `action` field (label plus a `() => void`
callback) is opaque to the registry — never read, compared or logged by any
registry command — and is omitted from the embedding. -/
structure AppError where
  id : String
  type : ErrorType
  message : String
  details : Option String
  stack : Option String
  timestamp : Nat
  recoverable : Option Bool
  code : Option String
  context : Option String
deriving DecidableEq

/-- The caller-facing input shape `CreateErrorInput`: an `AppError` without
the `id` and `timestamp` fields, which the caller can never supply. -/
structure CreateErrorInput where
  type : ErrorType
  message : String
  details : Option String
  stack : Option String
  recoverable : Option Bool
  code : Option String
  context : Option String
deriving DecidableEq

/-- The id generator `generateErrorId`: it concatenates a fixed tag,
`Date.now()` and a 9-character random suffix, separated by underscores.  Both
the clock reading and the random suffix are parameters of the embedding. -/
def generateErrorId (now : Nat) (rand : String) : String :=
  "error_" ++ toString now ++ "_" ++ rand

/-- One `console.error` call of `logErrorToConsole`: the four arguments it
passes (the optional ones are empty strings when the field is absent, exactly
as in the conditional expressions of the source). -/
structure LogLine where
  head : String
  detailsArg : String
  contextArg : String
  stackArg : String
deriving DecidableEq

/-- The log formatter `logErrorToConsole` from
`src/machines/error.machine.ts`. -/
def logErrorToConsole (e : AppError) : LogLine :=
  { head := "[" ++ e.type.toUpperCase ++ "] " ++ e.message
    detailsArg := match e.details with
      | some d => "\nDetails: " ++ d
      | none => ""
    contextArg := match e.context with
      | some c => "\nContext: " ++ c
      | none => ""
    stackArg := match e.stack with
      | some s => "\nStack: " ++ s
      | none => "" }

/-- The machine context `ErrorMachineContext` from
`src/machines/error.machine.ts`. -/
structure ErrorMachineContext where
  errors : List AppError
  globalError : Option AppError
  isOnline : Bool
  maxErrors : Nat
deriving DecidableEq

/-- The initial machine context; `navigator.onLine` is a parameter. -/
def initialContext (navigatorOnLine : Bool) : ErrorMachineContext :=
  { errors := []
    globalError := none
    isOnline := navigatorOnLine
    maxErrors := 50 }

/-- The event type `ErrorMachineEvent` from
`src/machines/error.machine.ts`. -/
inductive ErrorMachineEvent where
  | addError (payload : CreateErrorInput)
  | removeError (payload : String)
  | clearErrors
  | setGlobalError (payload : Option AppError)
  | setOnlineStatus (payload : Bool)
  | setMaxErrors (payload : Nat)
deriving DecidableEq

/-- JavaScript `xs.slice(-m)` for a natural `m`.  For `m ≥ 1` this keeps the
last `min m xs.length` elements; for `m = 0`, `-0` is `0` and `slice(0)`
returns the whole array. -/
def jsSliceLast (m : Nat) (xs : List α) : List α :=
  if m = 0 then xs else xs.drop (xs.length - m)

/-- The `AppError` built by `ADD_ERROR`: `{ ...event.payload, id:
generateErrorId(), timestamp: Date.now() }`. -/
def mkAppError (now : Nat) (rand : String) (p : CreateErrorInput) : AppError :=
  { id := generateErrorId now rand
    type := p.type
    message := p.message
    details := p.details
    stack := p.stack
    timestamp := now
    recoverable := p.recoverable
    code := p.code
    context := p.context }

/-- One transition of the `errorMachine` (state `active`), returning the new
context and the `console.error` lines the transition emits.  Mirrors the six
`assign` actions of `src/machines/error.machine.ts`. -/
def step (now : Nat) (rand : String) (s : ErrorMachineContext) :
    ErrorMachineEvent → ErrorMachineContext × List LogLine
  | .addError p =>
      let newError := mkAppError now rand p
      ({ s with errors := jsSliceLast s.maxErrors (s.errors ++ [newError]) },
        [logErrorToConsole newError])
  | .removeError id =>
      ({ s with errors := s.errors.filter (fun e => e.id != id) }, [])
  | .clearErrors =>
      ({ s with errors := [] }, [])
  | .setGlobalError p =>
      ({ s with globalError := p },
        match p with
        | some e => [logErrorToConsole e]
        | none => [])
  | .setOnlineStatus b =>
      ({ s with isOnline := b }, [])
  | .setMaxErrors n =>
      ({ s with maxErrors := n }, [])

/-- A command together with the effect inputs (`Date.now()`, random suffix)
consumed when the machine executes it. -/
structure TimedEvent where
  now : Nat
  rand : String
  event : ErrorMachineEvent
deriving DecidableEq

/-- Run a sequence of commands from a starting context (log output dropped). -/
def runFrom (s : ErrorMachineContext) : List TimedEvent → ErrorMachineContext
  | [] => s
  | t :: ts => runFrom (step t.now t.rand s t.event).1 ts

/-- Run a sequence of commands from the initial snapshot. -/
def run (navigatorOnLine : Bool) (l : List TimedEvent) : ErrorMachineContext :=
  runFrom (initialContext navigatorOnLine) l

/-- The id strings `generateErrorId` produces for the `ADD_ERROR` commands of
a trace, in order (the other commands call no id generation). -/
def genIds : List TimedEvent → List String
  | [] => []
  | t :: ts =>
      match t.event with
      | .addError _ => generateErrorId t.now t.rand :: genIds ts
      | _ => genIds ts

/-- The synthetic error input sent by `handleOffline` in
`ErrorToastProviderInner` (`src/context/ErrorToastProvider.tsx`). -/
def offlineErrorInput : CreateErrorInput :=
  { type := .network
    message := "Você está offline. Verifique sua conexão com a internet."
    details := none
    stack := none
    recoverable := some true
    code := none
    context := none }

/-- The browser `offline` handler of `ErrorToastProviderInner`: it sends
`SET_ONLINE_STATUS false` followed by `ADD_ERROR offlineErrorInput` to the
machine.  `now`/`rand` are the effect inputs of the `ADD_ERROR` step. -/
def handleOffline (now : Nat) (rand : String) (s : ErrorMachineContext) :
    ErrorMachineContext × List LogLine :=
  let r1 := step now rand s (.setOnlineStatus false)
  let r2 := step now rand r1.1 (.addError offlineErrorInput)
  (r2.1, r1.2 ++ r2.2)

/-! The plain-state `ErrorProvider` store (deduplicating variant).

`ErrorProvider` in the second half of `src/context/ErrorToastProvider.tsx`
keeps `errors`, `isOnline` and `globalError` in React state, with props
`maxErrors` (default 50) and `deduplicationWindow` (default 1000 ms). -/

/-- The state and configuration of one `ErrorProvider` instance. -/
structure ErrorProviderState where
  errors : List AppError
  isOnline : Bool
  globalError : Option AppError
  maxErrors : Nat
  deduplicationWindow : Nat
deriving DecidableEq

/-- The `addError` callback of `ErrorProvider`: it deduplicates against existing errors with equal
`message` and `type` whose age (`Date.now() - existing.timestamp`, a signed JS
number) is under the window, then appends and bounds with `slice(-maxErrors)`.
It performs no logging.  Returns the new state and the `console.error` lines
emitted (always none in this implementation). -/
def providerAddError (now : Nat) (rand : String) (st : ErrorProviderState)
    (input : CreateErrorInput) : ErrorProviderState × List LogLine :=
  let isDuplicate := st.errors.any fun existingError =>
    existingError.message == input.message &&
    existingError.type == input.type &&
    decide ((now : Int) - (existingError.timestamp : Int) <
      (st.deduplicationWindow : Int))
  if isDuplicate then
    (st, [])
  else
    let appError := mkAppError now rand input
    ({ st with errors := jsSliceLast st.maxErrors (st.errors ++ [appError]) },
      [])

/-! Context hooks.

A `useContext` call returns the default value of the context (`null` for
`ErrorToastContext`, `undefined` for `ErrorContext`) when no provider is above
the caller, modelled as `none`; inside a provider it returns the provided
value, modelled as `some`.  A thrown `Error` is modelled as `Except.error` of
its message. -/

/-- The data fields of `ErrorContextValue` (the function-valued members are
callbacks the hooks pass through untouched and are omitted). -/
structure ErrorContextValue where
  error : Option AppError
  errors : List AppError
  globalError : Option AppError
  isOnline : Bool
deriving DecidableEq

/-- The hook `useErrorToast` from `src/context/ErrorToastProvider.tsx`:
throws when the context value is `null`, returns it otherwise. -/
def useErrorToast : Option ErrorContextValue → Except String ErrorContextValue
  | none => .error ("useErrorToast must be used within an ErrorToastProvider")
  | some context => .ok context

/-- The hook `useErrorContext` from `src/context/ErrorToastProvider.tsx`:
throws when the context value is `undefined`, returns it otherwise. -/
def useErrorContext : Option ErrorContextValue → Except String ErrorContextValue
  | none => .error ("useErrorContext must be used within an ErrorProvider")
  | some context => .ok context

/-! Concrete records and states used by witnesses and counterexamples. -/

/-- A concrete validation input with message `A`. -/
def cInputA : CreateErrorInput :=
  { type := .validation, message := "A", details := none, stack := none,
    recoverable := none, code := none, context := none }

/-- A concrete validation input with message `B`. -/
def cInputB : CreateErrorInput :=
  { type := .validation, message := "B", details := none, stack := none,
    recoverable := none, code := none, context := none }

/-- A concrete validation input with message `C`. -/
def cInputC : CreateErrorInput :=
  { type := .validation, message := "C", details := none, stack := none,
    recoverable := none, code := none, context := none }

/-- The input of the deduplication scenario of the spec. -/
def cInputReq : CreateErrorInput :=
  { type := .validation, message := "Required field", details := none,
    stack := none, recoverable := none, code := none, context := none }

/-! Facts about `jsSliceLast`. -/

/-- A `slice(-m)` call yields a suffix, hence a sublist, of the array. -/
theorem jsSliceLast_sublist (m : Nat) (xs : List α) :
    (jsSliceLast m xs).Sublist xs := by
  unfold jsSliceLast
  split
  · exact List.Sublist.refl xs
  · exact List.drop_sublist _ xs

/-- A `slice(-m)` call on an array already within the bound is the array
itself. -/
theorem jsSliceLast_of_length_le {m : Nat} {xs : List α} (h : xs.length ≤ m) :
    jsSliceLast m xs = xs := by
  unfold jsSliceLast
  split
  · rfl
  · rw [Nat.sub_eq_zero_of_le h, List.drop_zero]

/-- For a positive bound `m`, `slice(-m)` keeps at most `m` elements. -/
theorem jsSliceLast_length_le {m : Nat} (h : 1 ≤ m) (xs : List α) :
    (jsSliceLast m xs).length ≤ m := by
  unfold jsSliceLast
  split
  · omega
  · rw [List.length_drop]
    omega

/-- A `slice(-m)` call after appending one element always keeps the appended
element, as the last element. -/
theorem jsSliceLast_concat_getLast? (m : Nat) (xs : List α) (a : α) :
    (jsSliceLast m (xs ++ [a])).getLast? = some a := by
  unfold jsSliceLast
  split
  · exact List.getLast?_concat xs
  · have hlen : (xs ++ [a]).length - m = xs.length + 1 - m := by simp
    rw [hlen, List.drop_append_of_le_length (by omega)]
    exact List.getLast?_concat _

/-- A `slice(-m)` call on a full array (length `m ≥ 1`) with one appended
element drops exactly the first element. -/
theorem jsSliceLast_concat_of_length_eq {m : Nat} {xs : List α} {a : α}
    (hm : 1 ≤ m) (h : xs.length = m) :
    jsSliceLast m (xs ++ [a]) = xs.drop 1 ++ [a] := by
  unfold jsSliceLast
  rw [if_neg (by omega)]
  have hlen : (xs ++ [a]).length - m = 1 := by simp [h]
  rw [hlen]
  exact List.drop_append_of_le_length (by omega)

/-! Claims. -/

/-- Claim C8: `CLEAR_ERRORS` empties `errors` and leaves `globalError`,
`isOnline` and `maxErrors` exactly as they were (and logs nothing). -/
theorem clearErrors_frame (now : Nat) (rand : String) (s : ErrorMachineContext) :
    (step now rand s .clearErrors).1.errors = [] ∧
    (step now rand s .clearErrors).1.globalError = s.globalError ∧
    (step now rand s .clearErrors).1.isOnline = s.isOnline ∧
    (step now rand s .clearErrors).1.maxErrors = s.maxErrors ∧
    (step now rand s .clearErrors).2 = [] :=
  ⟨rfl, rfl, rfl, rfl, rfl⟩

/-- Claim C10: outside their providers the hooks receive the context default
(`null`/`undefined`, modelled `none`) and always throw; inside a provider they
return the provided value and never throw. -/
theorem hooks_fail_fast :
    (useErrorToast none
      = Except.error ("useErrorToast must be used within an ErrorToastProvider")) ∧
    (∀ v, useErrorToast (some v) = Except.ok v) ∧
    (useErrorContext none
      = Except.error ("useErrorContext must be used within an ErrorProvider")) ∧
    (∀ v, useErrorContext (some v) = Except.ok v) :=
  ⟨rfl, fun _ => rfl, rfl, fun _ => rfl⟩

/-- Claim C2 (amended): `SET_MAX_ERRORS` updates `maxErrors` only; it never
touches `errors`, so no truncation happens at capacity-change time (it can
only happen at the next `ADD_ERROR`). -/
theorem setMaxErrors_updates_capacity_only (now : Nat) (rand : String)
    (s : ErrorMachineContext) (n : Nat) :
    step now rand s (.setMaxErrors n) = ({ s with maxErrors := n }, []) :=
  rfl

/-- The spec scenario for C2: capacity 2, add `B` and `C`, then `SetCapacity 0`. -/
def trBC0 : List TimedEvent :=
  [⟨0, "r0", .setMaxErrors 2⟩,
   ⟨1, "r1", .addError cInputB⟩,
   ⟨2, "r2", .addError cInputC⟩,
   ⟨3, "r3", .setMaxErrors 0⟩]

/-- Claim C2, counterexample: in the very scenario of the spec (records `[B, C]`,
capacity 2) the command `SetCapacity 0` leaves both records in place — the
records list is not emptied, refuting the claimed immediate truncation. -/
theorem c2_counterexample :
    (run true trBC0).maxErrors = 0 ∧
    (run true trBC0).errors.map (fun e => e.message) = ["B", "C"] := by
  decide

/-- Claim C1, counterexample: after `Add A; Add B; SetCapacity 1` from the
initial snapshot, the records list has 2 entries but capacity is 1 — the
invariant `len(records) ≤ capacity` does not survive a lowering `SetCapacity`. -/
theorem c1_counterexample :
    ¬ ((run true [⟨1, "r1", .addError cInputA⟩,
                  ⟨2, "r2", .addError cInputB⟩,
                  ⟨3, "r3", .setMaxErrors 1⟩]).errors.length
        ≤ (run true [⟨1, "r1", .addError cInputA⟩,
                     ⟨2, "r2", .addError cInputB⟩,
                     ⟨3, "r3", .setMaxErrors 1⟩]).maxErrors) := by
  decide

/-- Whether a command is `SET_MAX_ERRORS` (the one command that can break the
capacity invariant). -/
def ErrorMachineEvent.changesCapacity : ErrorMachineEvent → Bool
  | .setMaxErrors _ => true
  | _ => false

/-- Every command except `SET_MAX_ERRORS` preserves `len(errors) ≤ maxErrors`
(for a positive capacity) and leaves the capacity itself unchanged. -/
theorem step_preserves_bound (now : Nat) (rand : String)
    (s : ErrorMachineContext) (e : ErrorMachineEvent)
    (hinv : s.errors.length ≤ s.maxErrors) (hcap : 1 ≤ s.maxErrors)
    (hnot : e.changesCapacity = false) :
    (step now rand s e).1.errors.length ≤ (step now rand s e).1.maxErrors ∧
    (step now rand s e).1.maxErrors = s.maxErrors := by
  cases e with
  | addError p => exact ⟨jsSliceLast_length_le hcap _, rfl⟩
  | removeError id => exact ⟨le_trans (List.length_filter_le _ _) hinv, rfl⟩
  | clearErrors => exact ⟨Nat.zero_le _, rfl⟩
  | setGlobalError p => exact ⟨hinv, rfl⟩
  | setOnlineStatus b => exact ⟨hinv, rfl⟩
  | setMaxErrors n => simp [ErrorMachineEvent.changesCapacity] at hnot

/-- Any run avoiding `SET_MAX_ERRORS` maintains the capacity invariant from
any state satisfying it with positive capacity. -/
theorem runFrom_preserves_bound (l : List TimedEvent) :
    ∀ s : ErrorMachineContext, s.errors.length ≤ s.maxErrors →
    1 ≤ s.maxErrors →
    (∀ t ∈ l, t.event.changesCapacity = false) →
    (runFrom s l).errors.length ≤ (runFrom s l).maxErrors := by
  induction l with
  | nil => intro s hinv _ _; exact hinv
  | cons t ts ih =>
    intro s hinv hcap hl
    have hstep := step_preserves_bound t.now t.rand s t.event hinv hcap
      (hl t (List.mem_cons_self t ts))
    exact ih (step t.now t.rand s t.event).1 hstep.1
      (hstep.2 ▸ hcap) (fun u hu => hl u (List.mem_cons_of_mem t hu))

/-- Claim C1 (amended): for every sequence of registry commands from the
initial snapshot that contains no `SetCapacity` command,
`len(records) ≤ capacity` holds after every command.  (`SET_MAX_ERRORS` must
be excluded: it changes `maxErrors` without truncating `errors`, so lowering
capacity below the current record count breaks the invariant, as
`c1_counterexample` shows.) -/
theorem capacity_invariant (navigatorOnLine : Bool) (l : List TimedEvent)
    (hl : ∀ t ∈ l, t.event.changesCapacity = false) :
    (run navigatorOnLine l).errors.length
      ≤ (run navigatorOnLine l).maxErrors :=
  runFrom_preserves_bound l (initialContext navigatorOnLine)
    (Nat.zero_le 50) (by norm_num [initialContext]) hl

/-- Claim C1, witness: the invariant after a concrete `SetCapacity`-free run. -/
theorem capacity_invariant_witness :
    (run true [⟨1, "r1", .addError cInputA⟩,
               ⟨2, "r2", .addError cInputB⟩,
               ⟨3, "r3", .removeError ("error_1_r1")⟩]).errors.length
      ≤ (run true [⟨1, "r1", .addError cInputA⟩,
                   ⟨2, "r2", .addError cInputB⟩,
                   ⟨3, "r3", .removeError ("error_1_r1")⟩]).maxErrors :=
  capacity_invariant true _ (by decide)

/-- Claim C3: when the records list is exactly at a positive capacity,
`ADD_ERROR` appends the new record and evicts exactly the oldest one: the
result is the previous records minus the first, in order, with the new record
last, and its length is still the capacity. -/
theorem addError_at_capacity (now : Nat) (rand : String)
    (s : ErrorMachineContext) (p : CreateErrorInput)
    (hfull : s.errors.length = s.maxErrors) (hcap : 1 ≤ s.maxErrors) :
    (step now rand s (.addError p)).1.errors
      = s.errors.drop 1 ++ [mkAppError now rand p] ∧
    (step now rand s (.addError p)).1.errors.length = s.maxErrors ∧
    (step now rand s (.addError p)).1.errors.getLast?
      = some (mkAppError now rand p) := by
  have hmain : (step now rand s (.addError p)).1.errors
      = s.errors.drop 1 ++ [mkAppError now rand p] :=
    jsSliceLast_concat_of_length_eq hcap hfull
  refine ⟨hmain, ?_, ?_⟩
  · rw [hmain]
    simp [List.length_drop]
    omega
  · rw [hmain]
    exact List.getLast?_concat _

/-- A concrete context at capacity 1 with one record. -/
def ctxFull : ErrorMachineContext :=
  { errors := [mkAppError 0 "r0" cInputA]
    globalError := none
    isOnline := true
    maxErrors := 1 }

/-- Claim C3, witness: eviction of the single oldest record at capacity 1. -/
theorem addError_at_capacity_witness :
    (step 5 "r5" ctxFull (.addError cInputB)).1.errors
      = ctxFull.errors.drop 1 ++ [mkAppError 5 "r5" cInputB] ∧
    (step 5 "r5" ctxFull (.addError cInputB)).1.errors.length
      = ctxFull.maxErrors ∧
    (step 5 "r5" ctxFull (.addError cInputB)).1.errors.getLast?
      = some (mkAppError 5 "r5" cInputB) :=
  addError_at_capacity 5 "r5" ctxFull cInputB (by decide) (by decide)

/-- Claim C4 (amended): in the state-machine store, every `ADD_ERROR` and
every non-null `SET_GLOBAL_ERROR` emits exactly one log line, deterministic in
the fields of the record (`logErrorToConsole`), and a null `SET_GLOBAL_ERROR` emits
none; the plain-state `ErrorProvider` store, however, emits no log line at
all. -/
theorem diagnostic_logging :
    (∀ (now : Nat) (rand : String) (s : ErrorMachineContext)
        (p : CreateErrorInput),
      (step now rand s (.addError p)).2
        = [logErrorToConsole (mkAppError now rand p)]) ∧
    (∀ (now : Nat) (rand : String) (s : ErrorMachineContext) (e : AppError),
      (step now rand s (.setGlobalError (some e))).2 = [logErrorToConsole e]) ∧
    (∀ (now : Nat) (rand : String) (s : ErrorMachineContext),
      (step now rand s (.setGlobalError none)).2 = []) ∧
    (∀ (now : Nat) (rand : String) (st : ErrorProviderState)
        (input : CreateErrorInput),
      (providerAddError now rand st input).2 = []) := by
  refine ⟨fun _ _ _ _ => rfl, fun _ _ _ _ => rfl, fun _ _ _ => rfl,
    fun now rand st input => ?_⟩
  simp only [providerAddError]
  split <;> rfl

/-- The initial state of a default-configured `ErrorProvider`. -/
def provInit : ErrorProviderState :=
  { errors := []
    isOnline := true
    globalError := none
    maxErrors := 50
    deduplicationWindow := 1000 }

/-- Claim C4, counterexample: `ErrorProvider.addError` successfully adds a
record (the records list grows to one entry) yet emits zero diagnostic log
lines, refuting the claim that exactly one diagnostic log entry appears in
both error-store implementations. -/
theorem c4_counterexample :
    (providerAddError 0 "r0" provInit cInputA).1.errors.length = 1 ∧
    (providerAddError 0 "r0" provInit cInputA).2 = [] := by
  decide

/-- Claim C5: the browser `offline` handler, on any snapshot (in particular
one whose `isOnline` flag is true), flips the flag to false and appends
exactly one synthetic record — of category network, recoverable, carrying the
user-facing connectivity-lost message — to the records list (bounded, as
every append, by `slice(-maxErrors)`, which always keeps the new record
last). -/
theorem handleOffline_adds_network_record (now : Nat) (rand : String)
    (s : ErrorMachineContext) (_honline : s.isOnline = true) :
    (handleOffline now rand s).1.isOnline = false ∧
    (handleOffline now rand s).1.errors
      = jsSliceLast s.maxErrors
          (s.errors ++ [mkAppError now rand offlineErrorInput]) ∧
    (handleOffline now rand s).1.errors.getLast?
      = some (mkAppError now rand offlineErrorInput) ∧
    (mkAppError now rand offlineErrorInput).type = .network ∧
    (mkAppError now rand offlineErrorInput).recoverable = some true ∧
    (mkAppError now rand offlineErrorInput).message
      = "Você está offline. Verifique sua conexão com a internet." :=
  ⟨rfl, rfl, jsSliceLast_concat_getLast? s.maxErrors s.errors _, rfl, rfl, rfl⟩

/-- A concrete online snapshot with one record. -/
def ctxOnline : ErrorMachineContext :=
  { errors := [mkAppError 0 "r0" cInputA]
    globalError := none
    isOnline := true
    maxErrors := 50 }

/-- Claim C5, witness: the offline handler on a concrete online snapshot. -/
theorem handleOffline_adds_network_record_witness :
    (handleOffline 7 "r7" ctxOnline).1.isOnline = false ∧
    (handleOffline 7 "r7" ctxOnline).1.errors
      = jsSliceLast ctxOnline.maxErrors
          (ctxOnline.errors ++ [mkAppError 7 "r7" offlineErrorInput]) ∧
    (handleOffline 7 "r7" ctxOnline).1.errors.getLast?
      = some (mkAppError 7 "r7" offlineErrorInput) ∧
    (mkAppError 7 "r7" offlineErrorInput).type = .network ∧
    (mkAppError 7 "r7" offlineErrorInput).recoverable = some true ∧
    (mkAppError 7 "r7" offlineErrorInput).message
      = "Você está offline. Verifique sua conexão com a internet." :=
  handleOffline_adds_network_record 7 "r7" ctxOnline (by decide)

/-- Claim C7: `REMOVE_ERROR` removes exactly the record whose id matches
(assuming no other record shares that id) and leaves the others, in order,
and the rest of the snapshot untouched; an absent id makes the whole command
a no-op. -/
theorem removeError_exact :
    (∀ (now : Nat) (rand : String) (s : ErrorMachineContext)
        (l1 : List AppError) (r : AppError) (l2 : List AppError),
      s.errors = l1 ++ r :: l2 →
      (∀ e ∈ l1, e.id ≠ r.id) → (∀ e ∈ l2, e.id ≠ r.id) →
      step now rand s (.removeError r.id)
        = ({ s with errors := l1 ++ l2 }, [])) ∧
    (∀ (now : Nat) (rand : String) (s : ErrorMachineContext) (id : String),
      (∀ e ∈ s.errors, e.id ≠ id) →
      step now rand s (.removeError id) = (s, [])) := by
  constructor
  · intro now rand s l1 r l2 hs h1 h2
    have e1 : l1.filter (fun e => e.id != r.id) = l1 :=
      List.filter_eq_self.mpr fun e he => bne_iff_ne.mpr (h1 e he)
    have e2 : l2.filter (fun e => e.id != r.id) = l2 :=
      List.filter_eq_self.mpr fun e he => bne_iff_ne.mpr (h2 e he)
    simp only [step, hs, List.filter_append, List.filter_cons, e1, e2,
      bne_self_eq_false, Bool.false_eq_true, if_false]
  · intro now rand s id h
    have e1 : s.errors.filter (fun e => e.id != id) = s.errors :=
      List.filter_eq_self.mpr fun e he => bne_iff_ne.mpr (h e he)
    simp only [step, e1]

/-- A concrete two-record snapshot with distinct ids. -/
def ctxTwo : ErrorMachineContext :=
  { errors := [mkAppError 1 "r1" cInputA, mkAppError 2 "r2" cInputB]
    globalError := none
    isOnline := true
    maxErrors := 50 }

/-- Claim C7, witness: removing the second record of a concrete two-record
snapshot, and removing an id that is not present. -/
theorem removeError_exact_witness :
    (step 9 "r9" ctxTwo (.removeError (mkAppError 2 "r2" cInputB).id)
      = ({ ctxTwo with errors := [mkAppError 1 "r1" cInputA] }, [])) ∧
    (step 9 "r9" ctxTwo (.removeError ("absent")) = (ctxTwo, [])) := by
  constructor
  · have h := removeError_exact.1 9 "r9" ctxTwo
      [mkAppError 1 "r1" cInputA] (mkAppError 2 "r2" cInputB) []
      (by decide) (by decide) (by decide)
    simpa using h
  · exact removeError_exact.2 9 "r9" ctxTwo ("absent") (by decide)

/-- Claim C6, part of the statement, packaged as one theorem:
(b-within) under the deduplicating `ErrorProvider`, an input whose category
and message match an existing record younger than the deduplication window is
suppressed and the state is returned unchanged (and nothing is logged);
(b-outside) when every matching record is at least the window old and the list
is below capacity, the new record is appended after all existing ones;
(a) under the non-deduplicating machine store, an `ADD_ERROR` below capacity
appends unconditionally, so both duplicates end up present. -/
theorem deduplication_window :
    (∀ (now : Nat) (rand : String) (st : ErrorProviderState)
        (input : CreateErrorInput) (ex : AppError),
      ex ∈ st.errors → ex.message = input.message → ex.type = input.type →
      (now : Int) - (ex.timestamp : Int) < (st.deduplicationWindow : Int) →
      providerAddError now rand st input = (st, [])) ∧
    (∀ (now : Nat) (rand : String) (st : ErrorProviderState)
        (input : CreateErrorInput),
      (∀ e ∈ st.errors, e.message = input.message → e.type = input.type →
        (st.deduplicationWindow : Int) ≤ (now : Int) - (e.timestamp : Int)) →
      st.errors.length < st.maxErrors →
      (providerAddError now rand st input).1.errors
        = st.errors ++ [mkAppError now rand input]) ∧
    (∀ (now : Nat) (rand : String) (s : ErrorMachineContext)
        (p : CreateErrorInput),
      s.errors.length < s.maxErrors →
      (step now rand s (.addError p)).1.errors
        = s.errors ++ [mkAppError now rand p]) := by
  refine ⟨?_, ?_, ?_⟩
  · intro now rand st input ex hmem hmsg htype hlt
    have hdup : (st.errors.any fun existingError =>
        existingError.message == input.message &&
        existingError.type == input.type &&
        decide ((now : Int) - (existingError.timestamp : Int) <
          (st.deduplicationWindow : Int))) = true :=
      List.any_eq_true.mpr ⟨ex, hmem, by simp [hmsg, htype, hlt]⟩
    simp only [providerAddError, hdup, if_true]
  · intro now rand st input hout hroom
    have hdup : (st.errors.any fun existingError =>
        existingError.message == input.message &&
        existingError.type == input.type &&
        decide ((now : Int) - (existingError.timestamp : Int) <
          (st.deduplicationWindow : Int))) = false := by
      rw [List.any_eq_false]
      intro e hmem hcontra
      simp only [Bool.and_eq_true, beq_iff_eq, decide_eq_true_eq] at hcontra
      exact absurd hcontra.2
        (not_lt.mpr (hout e hmem hcontra.1.1 hcontra.1.2))
    simp only [providerAddError, hdup, Bool.false_eq_true, if_false]
    exact jsSliceLast_of_length_le (by simp; omega)
  · intro now rand s p hroom
    simp only [step]
    exact jsSliceLast_of_length_le (by simp; omega)

/-- A provider state holding one `Required field` validation record, default
window and capacity. -/
def provSt : ErrorProviderState :=
  { errors := [mkAppError 0 "r0" cInputReq]
    isOnline := true
    globalError := none
    maxErrors := 50
    deduplicationWindow := 1000 }

/-- Claim C6, witness: the identical `Required field` validation input 200 ms
after the existing record is suppressed; 2000 ms after, it is appended; the
machine store appends it regardless. -/
theorem deduplication_window_witness :
    (providerAddError 200 "r2" provSt cInputReq = (provSt, [])) ∧
    ((providerAddError 2000 "r2" provSt cInputReq).1.errors
      = provSt.errors ++ [mkAppError 2000 "r2" cInputReq]) ∧
    ((step 200 "r2" ctxOnline (.addError cInputReq)).1.errors
      = ctxOnline.errors ++ [mkAppError 200 "r2" cInputReq]) :=
  ⟨deduplication_window.1 200 "r2" provSt cInputReq
      (mkAppError 0 "r0" cInputReq) (by decide) rfl rfl (by decide),
    deduplication_window.2.1 2000 "r2" provSt cInputReq (by decide) (by decide),
    deduplication_window.2.2 200 "r2" ctxOnline cInputReq (by decide)⟩

/-- The trace refuting the unconditional both-records-appear clause of C6:
capacity 1, then two identical `Required field` additions through the machine
store. -/
def trDedup : List TimedEvent :=
  [⟨0, "r0", .setMaxErrors 1⟩,
   ⟨0, "r1", .addError cInputReq⟩,
   ⟨2000, "r2", .addError cInputReq⟩]

/-- Claim C6, counterexample: under the non-deduplicating machine store at
capacity 1, after the second identical addition only the new record remains —
the earlier duplicate was evicted, so the claim that both records appear does
not hold unconditionally. -/
theorem c6_counterexample :
    (run true trDedup).errors.length = 1 ∧
    (run true trDedup).errors.map (fun e => e.id) = ["error_2000_r2"] := by
  decide

/-- Along a run whose generated ids are pairwise distinct, the stored ids stay
pairwise distinct, disjoint from the ids yet to be generated, and drawn only
from the starting ids plus the generated ids. -/
theorem runFrom_ids (l : List TimedEvent) :
    ∀ s : ErrorMachineContext,
    (genIds l).Nodup →
    (s.errors.map fun e => e.id).Nodup →
    (∀ id ∈ s.errors.map fun e => e.id, id ∉ genIds l) →
    ((runFrom s l).errors.map fun e => e.id).Nodup ∧
    (∀ id ∈ (runFrom s l).errors.map fun e => e.id,
      id ∈ (s.errors.map fun e => e.id) ∨ id ∈ genIds l) := by
  induction l with
  | nil =>
    intro s _ hnd _
    exact ⟨hnd, fun id hid => Or.inl hid⟩
  | cons t ts ih =>
    obtain ⟨tn, tr, te⟩ := t
    intro s hgen hnd hdisj
    cases te with
    | addError p =>
      have hgents : (genIds ts).Nodup := (List.nodup_cons.mp hgen).2
      have hgnew : generateErrorId tn tr ∉ genIds ts :=
        (List.nodup_cons.mp hgen).1
      have hgold : generateErrorId tn tr ∉ s.errors.map fun e => e.id :=
        fun hmem => hdisj _ hmem (List.mem_cons_self _ _)
      have hsub : (((step tn tr s (.addError p)).1.errors.map
            fun e => e.id)).Sublist
          ((s.errors.map fun e => e.id) ++ [generateErrorId tn tr]) := by
        have h := (jsSliceLast_sublist s.maxErrors
          (s.errors ++ [mkAppError tn tr p])).map fun e => e.id
        rw [List.map_append] at h
        exact h
      have hnd1 : ((step tn tr s (.addError p)).1.errors.map
          fun e => e.id).Nodup := by
        refine List.Nodup.sublist hsub ?_
        simp [List.nodup_append, hnd, hgold]
      have hdisj1 : ∀ id ∈ (step tn tr s (.addError p)).1.errors.map
          fun e => e.id, id ∉ genIds ts := by
        intro id hid
        rcases List.mem_append.mp (hsub.subset hid) with hin | hin
        · exact fun hts => hdisj id hin (List.mem_cons_of_mem _ hts)
        · rw [List.mem_singleton.mp hin]
          exact hgnew
      obtain ⟨h1, h2⟩ := ih (step tn tr s (.addError p)).1 hgents hnd1 hdisj1
      refine ⟨h1, fun id hid => ?_⟩
      rcases h2 id hid with hin | hin
      · rcases List.mem_append.mp (hsub.subset hin) with hin2 | hin2
        · exact Or.inl hin2
        · rw [List.mem_singleton.mp hin2]
          exact Or.inr (List.mem_cons_self _ _)
      · exact Or.inr (List.mem_cons_of_mem _ hin)
    | removeError rid =>
      have hsub : (((step tn tr s (.removeError rid)).1.errors.map
            fun e => e.id)).Sublist (s.errors.map fun e => e.id) :=
        (List.filter_sublist s.errors).map fun e => e.id
      obtain ⟨h1, h2⟩ := ih (step tn tr s (.removeError rid)).1 hgen
        (hnd.sublist hsub) (fun id hid => hdisj id (hsub.subset hid))
      refine ⟨h1, fun id hid => ?_⟩
      rcases h2 id hid with hin | hin
      · exact Or.inl (hsub.subset hin)
      · exact Or.inr hin
    | clearErrors =>
      obtain ⟨h1, h2⟩ := ih (step tn tr s .clearErrors).1 hgen
        (by simp [step]) (by simp [step])
      refine ⟨h1, fun id hid => ?_⟩
      rcases h2 id hid with hin | hin
      · exact absurd hin (by simp [step])
      · exact Or.inr hin
    | setGlobalError p => exact ih (step tn tr s (.setGlobalError p)).1 hgen hnd hdisj
    | setOnlineStatus b => exact ih (step tn tr s (.setOnlineStatus b)).1 hgen hnd hdisj
    | setMaxErrors n => exact ih (step tn tr s (.setMaxErrors n)).1 hgen hnd hdisj

/-- Claim C9 (amended): the id of every stored record is registry-assigned
(it is one of the `generateErrorId` outputs consumed by the run — callers
cannot supply ids, as `CreateErrorInput` has no id field), and whenever the
id-generator outputs of a run are pairwise distinct, the records stored at
the end hold pairwise distinct ids. -/
theorem errorIds_unique (navigatorOnLine : Bool) (l : List TimedEvent)
    (hgen : (genIds l).Nodup) :
    ((run navigatorOnLine l).errors.map fun e => e.id).Nodup ∧
    (∀ id ∈ (run navigatorOnLine l).errors.map fun e => e.id,
      id ∈ genIds l) := by
  have h := runFrom_ids l (initialContext navigatorOnLine) hgen
    (by simp [initialContext]) (by simp [initialContext])
  refine ⟨h.1, fun id hid => ?_⟩
  rcases h.2 id hid with h1 | h2
  · exact absurd h1 (by simp [initialContext])
  · exact h2

/-- Claim C9, witness: a concrete two-add run with distinct generator inputs
yields two records with distinct, generator-assigned ids. -/
theorem errorIds_unique_witness :
    ((run true [⟨1, "a", .addError cInputA⟩,
                ⟨2, "b", .addError cInputB⟩]).errors.map fun e => e.id).Nodup ∧
    (∀ id ∈ (run true [⟨1, "a", .addError cInputA⟩,
                       ⟨2, "b", .addError cInputB⟩]).errors.map fun e => e.id,
      id ∈ genIds [⟨1, "a", .addError cInputA⟩,
                   ⟨2, "b", .addError cInputB⟩]) :=
  errorIds_unique true
    [⟨1, "a", .addError cInputA⟩, ⟨2, "b", .addError cInputB⟩] (by decide)

/-- Claim C9, counterexample: `generateErrorId` is only as unique as
`Date.now()` paired with the 9-character random suffix; two `ADD_ERROR`
commands in the same millisecond with the same random suffix store two
records sharing one id. -/
theorem c9_counterexample :
    ¬ ((run true [⟨5, "abc", .addError cInputA⟩,
                  ⟨5, "abc", .addError cInputB⟩]).errors.map
        fun e => e.id).Nodup := by
  decide
